import Mathlib

/-!
Verification of the shader-loader components of the `cpp-concepts` OpenGL
examples. The embedded functions mirror, line for line, the C++ sources:

* `ParseShader` / `CompileShader` from
  `ex02_DrawTwoRectangles/ex02_DrawTwoRectangles.cpp`,
* `Shader` construction, uniform setters and `checkCompileErrors` from
  `ex03_Shaders/shader.cpp`,
* the initialization sections of `main` from `ex03_Shaders/main.cpp` and
  `HelloWorld_GL/HelloWorld_GL.cpp`.

A text file is embedded as the list of lines delivered by `std::getline`;
the OpenGL driver is embedded as an explicit state of shader/program
objects, with the driver-dependent compile/link verdicts supplied as
parameters.
-/

/-- Predicate `listContains needle hay`: `needle` occurs as a contiguous sublist of
`hay`.  This is the semantics of `hay.find(needle) != std::string::npos`
(an empty needle is always found). -/
def listContains (needle : List Char) : List Char → Bool
  | [] => needle.isEmpty
  | c :: t => needle.isPrefixOf (c :: t) || listContains needle t

/-- Predicate `strContains hay needle` embeds the C++ test
`hay.find(needle) != std::string::npos`. -/
def strContains (hay needle : String) : Bool :=
  listContains needle.data hay.data

/-- The `ShaderType` enum local to `ParseShader`
(`NONE = -1, VERTEX = 0, FRAGMENT = 1`). -/
inductive ShaderType where
  | NONE
  | VERTEX
  | FRAGMENT
deriving DecidableEq, Repr

/-- The `struct ShaderProgramSource` from `ex02_DrawTwoRectangles.cpp`. -/
structure ShaderProgramSource where
  VertexSource : String
  FragmentSource : String
deriving DecidableEq, Repr

/-- The body of the `while (std::getline(...))` loop of `ParseShader`
applied to one line.  The state is the current `type` together with the
contents of the two `std::stringstream`s `ss[0]` (vertex) and `ss[1]`
(fragment); `ss[(int)type] << line << '\n'` appends the line and a
newline to the active buffer. -/
def parseLine (st : ShaderType × String × String) (line : String) :
    ShaderType × String × String :=
  if strContains line "#shader" then
    if strContains line "vertex" then (ShaderType.VERTEX, st.2.1, st.2.2)
    else if strContains line "fragment" then (ShaderType.FRAGMENT, st.2.1, st.2.2)
    else st
  else
    match st.1 with
    | ShaderType.NONE => st
    | ShaderType.VERTEX => (ShaderType.VERTEX, st.2.1 ++ line ++ "\n", st.2.2)
    | ShaderType.FRAGMENT => (ShaderType.FRAGMENT, st.2.1, st.2.2 ++ line ++ "\n")

/-- Function `ParseShader` from `ex02_DrawTwoRectangles.cpp`, applied to the list of
lines `std::getline` yields from the stream: starting from
`type = NONE` and two empty stringstreams, fold the loop body over the
lines and return `{ ss[0].str(), ss[1].str() }`. -/
def ParseShader (fileLines : List String) : ShaderProgramSource :=
  let st := fileLines.foldl parseLine (ShaderType.NONE, "", "")
  ⟨st.2.1, st.2.2⟩

/-- A line the splitter recognizes as switching to the vertex stage: it
contains `"#shader"` and `"vertex"` (the `vertex` test has priority in the
source's `if/else if`). -/
def isVertexMarker (line : String) : Bool :=
  strContains line "#shader" && strContains line "vertex"

/-- A line the splitter recognizes as switching to the fragment stage: it
contains `"#shader"` and `"fragment"` and not `"vertex"` (a line with both
stage words is taken by the `vertex` branch first). -/
def isFragmentMarker (line : String) : Bool :=
  strContains line "#shader" && !strContains line "vertex"
    && strContains line "fragment"

/-- A non-marker line: one containing no `"#shader"` token, hence handled
by the `else` (accumulation) branch of the loop. -/
def isNonMarker (line : String) : Bool :=
  !strContains line "#shader"

/-- Joining lines with a newline separator (no terminator), i.e.
`String.intercalate "\n"`: the reading of "newline-joined" under which the
claim about `ParseShader` output is tested. -/
def newlineJoined (ls : List String) : String :=
  String.intercalate "\n" ls

/-- What the accumulation loop actually builds: every line followed by a
terminating newline, concatenated in order. -/
def newlineTerminated : List String → String
  | [] => ""
  | l :: ls => l ++ "\n" ++ newlineTerminated ls

/-- Result of `ParseShader` on the lines of a file stream that failed to
open: the C++ function prints
`"Failed to open shader file: " << filePath` on `std::cerr` and falls
through; `std::getline` on a failed stream yields no lines, so the loop
body never runs.  `none` stands for an unopenable file, `some ls` for a
file whose lines are `ls`.  The result pairs the diagnostics written to
the error stream with the returned `ShaderProgramSource`. -/
def ParseShaderFile (filePath : String) (file : Option (List String)) :
    List String × ShaderProgramSource :=
  match file with
  | none => (["Failed to open shader file: " ++ filePath], ParseShader [])
  | some ls => ([], ParseShader ls)

/-! ### Behaviour of the loop body on each kind of line -/

theorem parseLine_nonmarker_NONE (v f : String) (l : String)
    (h : strContains l "#shader" = false) :
    parseLine (ShaderType.NONE, v, f) l = (ShaderType.NONE, v, f) := by
  simp [parseLine, h]

theorem parseLine_nonmarker_VERTEX (v f : String) (l : String)
    (h : strContains l "#shader" = false) :
    parseLine (ShaderType.VERTEX, v, f) l = (ShaderType.VERTEX, v ++ (l ++ "\n"), f) := by
  simp [parseLine, h, String.append_assoc]

theorem parseLine_nonmarker_FRAGMENT (v f : String) (l : String)
    (h : strContains l "#shader" = false) :
    parseLine (ShaderType.FRAGMENT, v, f) l = (ShaderType.FRAGMENT, v, f ++ (l ++ "\n")) := by
  simp [parseLine, h, String.append_assoc]

/-- Before any marker has been seen (`type = NONE`), non-marker lines are
skipped by the loop. -/
theorem foldl_parseLine_NONE (ls : List String)
    (h : ∀ l ∈ ls, strContains l "#shader" = false) (v f : String) :
    ls.foldl parseLine (ShaderType.NONE, v, f) = (ShaderType.NONE, v, f) := by
  induction ls with
  | nil => rfl
  | cons l ls ih =>
    rw [List.foldl_cons, parseLine_nonmarker_NONE v f l (h l (List.mem_cons_self l ls))]
    exact ih fun x hx => h x (List.mem_cons_of_mem l hx)

/-- While the vertex stage is active, non-marker lines accumulate,
newline-terminated, onto the vertex buffer. -/
theorem foldl_parseLine_VERTEX (ls : List String)
    (h : ∀ l ∈ ls, strContains l "#shader" = false) (v f : String) :
    ls.foldl parseLine (ShaderType.VERTEX, v, f) =
      (ShaderType.VERTEX, v ++ newlineTerminated ls, f) := by
  induction ls generalizing v with
  | nil => simp [newlineTerminated]
  | cons l ls ih =>
    rw [List.foldl_cons, parseLine_nonmarker_VERTEX v f l (h l (List.mem_cons_self l ls)),
      ih (fun x hx => h x (List.mem_cons_of_mem l hx))]
    simp [newlineTerminated, String.append_assoc]

/-- While the fragment stage is active, non-marker lines accumulate,
newline-terminated, onto the fragment buffer. -/
theorem foldl_parseLine_FRAGMENT (ls : List String)
    (h : ∀ l ∈ ls, strContains l "#shader" = false) (v f : String) :
    ls.foldl parseLine (ShaderType.FRAGMENT, v, f) =
      (ShaderType.FRAGMENT, v, f ++ newlineTerminated ls) := by
  induction ls generalizing f with
  | nil => simp [newlineTerminated]
  | cons l ls ih =>
    rw [List.foldl_cons, parseLine_nonmarker_FRAGMENT v f l (h l (List.mem_cons_self l ls)),
      ih (fun x hx => h x (List.mem_cons_of_mem l hx))]
    simp [newlineTerminated, String.append_assoc]

/-- One step of the invariant behind C3: if a line is not a
fragment-switch line, the loop body cannot make the fragment stage active
and cannot write to the fragment buffer. -/
theorem parseLine_no_fragMarker (ty : ShaderType) (v f : String) (l : String)
    (hl : isFragmentMarker l = false) (hty : ty ≠ ShaderType.FRAGMENT) :
    (parseLine (ty, v, f) l).1 ≠ ShaderType.FRAGMENT ∧
      (parseLine (ty, v, f) l).2.2 = f := by
  unfold isFragmentMarker at hl
  unfold parseLine
  cases hsh : strContains l "#shader" with
  | false => cases ty <;> simp_all
  | true =>
    cases hv : strContains l "vertex" with
    | false =>
      simp [hsh, hv] at hl
      simp [hsh, hv, hl]
      cases ty <;> simp_all
    | true => simp [hsh, hv]

/-- One step of the symmetric invariant: if a line is not a vertex-switch
line, the loop body cannot make the vertex stage active and cannot write
to the vertex buffer. -/
theorem parseLine_no_vertexMarker (ty : ShaderType) (v f : String) (l : String)
    (hl : isVertexMarker l = false) (hty : ty ≠ ShaderType.VERTEX) :
    (parseLine (ty, v, f) l).1 ≠ ShaderType.VERTEX ∧
      (parseLine (ty, v, f) l).2.1 = v := by
  unfold isVertexMarker at hl
  unfold parseLine
  cases hsh : strContains l "#shader" with
  | false => cases ty <;> simp_all
  | true =>
    simp [hsh] at hl
    cases hf : strContains l "fragment" <;> cases ty <;> simp_all

/-- Fold form of the C3 invariant for the fragment side. -/
theorem foldl_parseLine_no_fragMarker (ls : List String)
    (h : ∀ l ∈ ls, isFragmentMarker l = false) (st : ShaderType × String × String)
    (hst : st.1 ≠ ShaderType.FRAGMENT) :
    (ls.foldl parseLine st).1 ≠ ShaderType.FRAGMENT ∧
      (ls.foldl parseLine st).2.2 = st.2.2 := by
  induction ls generalizing st with
  | nil => exact ⟨hst, rfl⟩
  | cons l ls ih =>
    obtain ⟨ty, v, f⟩ := st
    have step := parseLine_no_fragMarker ty v f l (h l (List.mem_cons_self l ls)) hst
    rw [List.foldl_cons]
    have tail := ih (fun x hx => h x (List.mem_cons_of_mem l hx))
      (parseLine (ty, v, f) l) step.1
    exact ⟨tail.1, by rw [tail.2, step.2]⟩

/-- Fold form of the C3 invariant for the vertex side. -/
theorem foldl_parseLine_no_vertexMarker (ls : List String)
    (h : ∀ l ∈ ls, isVertexMarker l = false) (st : ShaderType × String × String)
    (hst : st.1 ≠ ShaderType.VERTEX) :
    (ls.foldl parseLine st).1 ≠ ShaderType.VERTEX ∧
      (ls.foldl parseLine st).2.1 = st.2.1 := by
  induction ls generalizing st with
  | nil => exact ⟨hst, rfl⟩
  | cons l ls ih =>
    obtain ⟨ty, v, f⟩ := st
    have step := parseLine_no_vertexMarker ty v f l (h l (List.mem_cons_self l ls)) hst
    rw [List.foldl_cons]
    have tail := ih (fun x hx => h x (List.mem_cons_of_mem l hx))
      (parseLine (ty, v, f) l) step.1
    exact ⟨tail.1, by rw [tail.2, step.2]⟩

/-! ### Claims about the shader source splitter -/

/-- C1 (counterexample).  The claim reads `ParseShader`'s buffers as the
section lines "newline-joined" (`String.intercalate "\n"`, no trailing
newline).  On the file `#shader vertex / a / #shader fragment / b` the
input satisfies the claim's shape hypotheses, yet the code returns
`⟨"a\n", "b\n"⟩`, not `⟨"a", "b"⟩`: every accumulated line carries a
terminating newline. -/
theorem parseShader_newlineJoined_counterexample :
    isVertexMarker "#shader vertex" = true ∧ isNonMarker "a" = true ∧
    isFragmentMarker "#shader fragment" = true ∧ isNonMarker "b" = true ∧
    ParseShader ["#shader vertex", "a", "#shader fragment", "b"] ≠
      ⟨newlineJoined ["a"], newlineJoined ["b"]⟩ := by
  refine ⟨by decide, by decide, by decide, by decide, ?_⟩
  decide

/-- C1 (amended).  For a file consisting of a vertex-marker line, then `N`
non-marker lines, then a fragment-marker line, then `M` non-marker lines,
`ParseShader` returns exactly those `N` lines (each terminated by a
newline, concatenated in original order) as `VertexSource` and those `M`
lines likewise as `FragmentSource`. -/
theorem parseShader_marker_sections (vm fm : String) (vlines flines : List String)
    (hvm : isVertexMarker vm = true)
    (hfm : isFragmentMarker fm = true)
    (hv : ∀ l ∈ vlines, isNonMarker l = true)
    (hf : ∀ l ∈ flines, isNonMarker l = true) :
    ParseShader (vm :: (vlines ++ fm :: flines)) =
      ⟨newlineTerminated vlines, newlineTerminated flines⟩ := by
  have hvm' : strContains vm "#shader" = true ∧ strContains vm "vertex" = true := by
    simpa [isVertexMarker] using hvm
  have hfm' : strContains fm "#shader" = true ∧ strContains fm "vertex" = false ∧
      strContains fm "fragment" = true := by
    simpa [isFragmentMarker, and_assoc] using hfm
  have hv' : ∀ l ∈ vlines, strContains l "#shader" = false := by
    intro l hl; simpa [isNonMarker] using hv l hl
  have hf' : ∀ l ∈ flines, strContains l "#shader" = false := by
    intro l hl; simpa [isNonMarker] using hf l hl
  unfold ParseShader
  rw [List.foldl_cons]
  rw [show parseLine (ShaderType.NONE, "", "") vm = (ShaderType.VERTEX, "", "") by
    simp [parseLine, hvm'.1, hvm'.2]]
  rw [List.foldl_append, foldl_parseLine_VERTEX vlines hv' "" ""]
  rw [List.foldl_cons]
  rw [show parseLine (ShaderType.VERTEX, "" ++ newlineTerminated vlines, "") fm =
      (ShaderType.FRAGMENT, "" ++ newlineTerminated vlines, "") by
    simp [parseLine, hfm'.1, hfm'.2.1, hfm'.2.2]]
  rw [foldl_parseLine_FRAGMENT flines hf']
  simp

/-- C1 (amended, witness): the sectioned file
`#shader vertex / a1 / a2 / #shader fragment / b1` splits into
`VertexSource = "a1\na2\n"` and `FragmentSource = "b1\n"`. -/
theorem parseShader_marker_sections_witness :
    ParseShader ["#shader vertex", "a1", "a2", "#shader fragment", "b1"] =
      ⟨newlineTerminated ["a1", "a2"], newlineTerminated ["b1"]⟩ :=
  parseShader_marker_sections "#shader vertex" "#shader fragment" ["a1", "a2"] ["b1"]
    (by decide) (by decide) (by decide) (by decide)

/-- C2.  If no line of the file contains the marker token `"#shader"`,
`ParseShader` returns empty vertex and fragment buffers: the stage stays
`NONE` for the whole loop, so nothing is ever accumulated. -/
theorem parseShader_no_markers_empty (fileLines : List String)
    (h : ∀ l ∈ fileLines, strContains l "#shader" = false) :
    ParseShader fileLines = ⟨"", ""⟩ := by
  unfold ParseShader
  rw [foldl_parseLine_NONE fileLines h]

/-- C2 (witness): a three-line file with no `"#shader"` token yields two
empty buffers. -/
theorem parseShader_no_markers_empty_witness :
    ParseShader ["vec4 color;", "void main() \x7b\x7d", ""] = ⟨"", ""⟩ :=
  parseShader_no_markers_empty ["vec4 color;", "void main() \x7b\x7d", ""] (by decide)

/-- C3.  A file that contains a vertex marker but no fragment marker gets
an empty `FragmentSource`; symmetrically, a file that contains a fragment
marker but no vertex marker gets an empty `VertexSource`. -/
theorem parseShader_missing_marker_empty (fileA fileB : List String)
    (hA1 : ∃ l ∈ fileA, isVertexMarker l = true)
    (hA2 : ∀ l ∈ fileA, isFragmentMarker l = false)
    (hB1 : ∃ l ∈ fileB, isFragmentMarker l = true)
    (hB2 : ∀ l ∈ fileB, isVertexMarker l = false) :
    (ParseShader fileA).FragmentSource = "" ∧
      (ParseShader fileB).VertexSource = "" := by
  constructor
  · unfold ParseShader
    exact (foldl_parseLine_no_fragMarker fileA hA2 (ShaderType.NONE, "", "")
      (by decide)).2
  · unfold ParseShader
    exact (foldl_parseLine_no_vertexMarker fileB hB2 (ShaderType.NONE, "", "")
      (by decide)).2

/-- C3 (witness): `#shader vertex / a` has an empty fragment buffer, and
`#shader fragment / b` has an empty vertex buffer. -/
theorem parseShader_missing_marker_empty_witness :
    (ParseShader ["#shader vertex", "a"]).FragmentSource = "" ∧
      (ParseShader ["#shader fragment", "b"]).VertexSource = "" :=
  parseShader_missing_marker_empty ["#shader vertex", "a"] ["#shader fragment", "b"]
    ⟨"#shader vertex", by decide, by decide⟩ (by decide)
    ⟨"#shader fragment", by decide, by decide⟩ (by decide)

/-- C4.  When the shader file cannot be opened (`file = none`), the
function writes a diagnostic to the error stream and still returns
normally, with both buffers empty (`std::getline` yields no lines from a
failed stream). -/
theorem parseShaderFile_open_failure (filePath : String) :
    (ParseShaderFile filePath none).1 ≠ [] ∧
      (ParseShaderFile filePath none).2 = ⟨"", ""⟩ := by
  constructor
  · simp [ParseShaderFile]
  · rfl

/-- C9.  A line containing `"#shader"` but neither `"vertex"` nor
`"fragment"` is consumed as a marker line: the loop body leaves the state
(active stage and both buffers) unchanged, so the remaining lines fold
exactly as if the line were absent. -/
theorem parseLine_unrecognized_marker_noop (line : String)
    (st : ShaderType × String × String) (rest : List String)
    (h1 : strContains line "#shader" = true)
    (h2 : strContains line "vertex" = false)
    (h3 : strContains line "fragment" = false) :
    parseLine st line = st ∧
      (line :: rest).foldl parseLine st = rest.foldl parseLine st := by
  have hstep : parseLine st line = st := by
    simp [parseLine, h1, h2, h3]
  exact ⟨hstep, by rw [List.foldl_cons, hstep]⟩

/-- C9 (witness): `"#shader geometry"` leaves a mid-file vertex-stage
state untouched and the following line still accumulates to the vertex
buffer. -/
theorem parseLine_unrecognized_marker_noop_witness :
    parseLine (ShaderType.VERTEX, "x\n", "") "#shader geometry" =
        (ShaderType.VERTEX, "x\n", "") ∧
      (("#shader geometry" :: ["y"]).foldl parseLine (ShaderType.VERTEX, "x\n", "")) =
        (["y"].foldl parseLine (ShaderType.VERTEX, "x\n", "")) :=
  parseLine_unrecognized_marker_noop "#shader geometry" (ShaderType.VERTEX, "x\n", "")
    ["y"] (by decide) (by decide) (by decide)

/-- C10.  Lines before the first marker line are discarded: a file whose
leading lines contain no `"#shader"` parses to exactly the same result as
the file without them, because the stage is still `NONE` and the
accumulation branch does nothing. -/
theorem parseShader_drops_lines_before_first_marker (pre rest : List String)
    (h : ∀ l ∈ pre, strContains l "#shader" = false) :
    ParseShader (pre ++ rest) = ParseShader rest := by
  unfold ParseShader
  rw [List.foldl_append, foldl_parseLine_NONE pre h]

/-- C10 (witness): two arbitrary leading lines before the first marker
leave the parse of the marked remainder unchanged. -/
theorem parseShader_drops_lines_before_first_marker_witness :
    ParseShader (["junk", "more junk"] ++ ["#shader vertex", "a"]) =
      ParseShader ["#shader vertex", "a"] :=
  parseShader_drops_lines_before_first_marker ["junk", "more junk"]
    ["#shader vertex", "a"] (by decide)

/-! ### OpenGL uniform state and the `Shader` wrapper (ex03_Shaders) -/

/-- A uniform value, tagged by the GL call that writes it
(`glUniform1f`, `glUniform3fv`, `glUniform4f`, `glUniformMatrix4fv`).
The scalar component type is abstract: the claims are about storage, not
float arithmetic. -/
inductive GLValue (α : Type) where
  | float (x : α)
  | vec3 (x y z : α)
  | vec4 (x y z w : α)
  | mat4 (m : List α)
deriving DecidableEq, Repr

/-- A linked program's reflection data: its active uniforms, as a list of
name/value pairs.  A uniform's location is its index in this list. -/
structure GLProgram (α : Type) where
  uniforms : List (String × GLValue α)
deriving DecidableEq, Repr

/-- The GL context as seen by the uniform setters: the program objects by
id, and the id of the program made current by `glUseProgram`. -/
structure GLContext (α : Type) where
  programs : List (Nat × GLProgram α)
  current : Nat
deriving DecidableEq, Repr

/-- Look up a program object by id. -/
def lookupProgram (ctx : GLContext α) (pid : Nat) : Option (GLProgram α) :=
  (ctx.programs.find? (fun pr => pr.1 == pid)).map (fun pr => pr.2)

/-- Model of `glGetUniformLocation(program, name)`: the index of the uniform named
`name` in the program's reflection data, or the sentinel `-1` when the
name is absent (or the program id is unknown). -/
def glGetUniformLocation (ctx : GLContext α) (pid : Nat) (name : String) : Int :=
  match lookupProgram ctx pid with
  | none => -1
  | some p =>
    match p.uniforms.findIdx? (fun u => u.1 == name) with
    | some i => (i : Int)
    | none => -1

/-- Overwrite the value stored at index `i` of a uniform list, keeping the
name. -/
def setUniformAt : List (String × GLValue α) → Nat → GLValue α → List (String × GLValue α)
  | [], _, _ => []
  | u :: t, 0, v => (u.1, v) :: t
  | u :: t, n + 1, v => u :: setUniformAt t n v

/-- A `glUniform*` write: per the GL specification, a call with location
`-1` is silently ignored; otherwise the value at that location of the
current program is overwritten. -/
def glUniformWrite (ctx : GLContext α) (loc : Int) (v : GLValue α) : GLContext α :=
  if loc < 0 then ctx
  else
    { ctx with
      programs := ctx.programs.map (fun pr =>
        if pr.1 == ctx.current then (pr.1, ⟨setUniformAt pr.2.uniforms loc.toNat v⟩)
        else pr) }

/-- The `Shader` wrapper class of `shader.h`/`shader.cpp`: it owns the id
of the linked program. -/
structure Shader where
  ID : Nat
deriving DecidableEq, Repr

/-- Embedding of `Shader::setFloat`: `glUniform1f(glGetUniformLocation(ID, name), value)`. -/
def Shader.setFloat (s : Shader) (name : String) (value : α) (ctx : GLContext α) :
    GLContext α :=
  glUniformWrite ctx (glGetUniformLocation ctx s.ID name) (GLValue.float value)

/-- Embedding of `Shader::setVec3`: `glUniform3fv(glGetUniformLocation(ID, name), 1, ptr v)`. -/
def Shader.setVec3 (s : Shader) (name : String) (x y z : α) (ctx : GLContext α) :
    GLContext α :=
  glUniformWrite ctx (glGetUniformLocation ctx s.ID name) (GLValue.vec3 x y z)

/-- Embedding of `Shader::setVec4`: `glUniform4f(glGetUniformLocation(ID, name), v.x, v.y, v.z, v.w)`. -/
def Shader.setVec4 (s : Shader) (name : String) (x y z w : α) (ctx : GLContext α) :
    GLContext α :=
  glUniformWrite ctx (glGetUniformLocation ctx s.ID name) (GLValue.vec4 x y z w)

/-- Embedding of `Shader::setMat4`: `glUniformMatrix4fv(glGetUniformLocation(ID, name), 1, GL_FALSE, ptr m)`. -/
def Shader.setMat4 (s : Shader) (name : String) (m : List α) (ctx : GLContext α) :
    GLContext α :=
  glUniformWrite ctx (glGetUniformLocation ctx s.ID name) (GLValue.mat4 m)

/-- C5.  If `name` does not occur among the uniforms of the linked program
`s.ID`, then `glGetUniformLocation` returns the `-1` sentinel and each of
the four setters is a silent no-op: the whole GL context — in particular
the value of every uniform of every program — is unchanged. -/
theorem uniform_setter_absent_name_noop {α : Type} (s : Shader) (name : String)
    (ctx : GLContext α) (p : GLProgram α) (xf x3a x3b x3c x4a x4b x4c x4d : α)
    (m : List α)
    (hp : lookupProgram ctx s.ID = some p)
    (habsent : ∀ u ∈ p.uniforms, u.1 ≠ name) :
    s.setFloat name xf ctx = ctx ∧
      s.setVec3 name x3a x3b x3c ctx = ctx ∧
      s.setVec4 name x4a x4b x4c x4d ctx = ctx ∧
      s.setMat4 name m ctx = ctx := by
  have hidx : p.uniforms.findIdx? (fun u => u.1 == name) = none := by
    rw [List.findIdx?_eq_none_iff]
    intro u hu
    simpa using habsent u hu
  have hloc : glGetUniformLocation ctx s.ID name = -1 := by
    unfold glGetUniformLocation
    rw [hp]
    simp [hidx]
  refine ⟨?_, ?_, ?_, ?_⟩ <;>
    simp [Shader.setFloat, Shader.setVec3, Shader.setVec4, Shader.setMat4, hloc,
      glUniformWrite]

/-- C5 (witness): on a context holding one program (id 1) whose only
uniform is `uColor`, setting the absent name `uOffset` through any of the
four setters leaves the context unchanged. -/
theorem uniform_setter_absent_name_noop_witness :
    (Shader.mk 1).setFloat "uOffset" (0 : Nat)
        ⟨[(1, ⟨[("uColor", GLValue.vec4 1 0 0 1)]⟩)], 1⟩ =
      ⟨[(1, ⟨[("uColor", GLValue.vec4 1 0 0 1)]⟩)], 1⟩ ∧
    (Shader.mk 1).setVec3 "uOffset" 0 0 0
        ⟨[(1, ⟨[("uColor", GLValue.vec4 1 0 0 1)]⟩)], 1⟩ =
      ⟨[(1, ⟨[("uColor", GLValue.vec4 1 0 0 1)]⟩)], 1⟩ ∧
    (Shader.mk 1).setVec4 "uOffset" 0 0 1 1
        ⟨[(1, ⟨[("uColor", GLValue.vec4 1 0 0 1)]⟩)], 1⟩ =
      ⟨[(1, ⟨[("uColor", GLValue.vec4 1 0 0 1)]⟩)], 1⟩ ∧
    (Shader.mk 1).setMat4 "uOffset" [1, 0, 0, 1]
        ⟨[(1, ⟨[("uColor", GLValue.vec4 1 0 0 1)]⟩)], 1⟩ =
      ⟨[(1, ⟨[("uColor", GLValue.vec4 1 0 0 1)]⟩)], 1⟩ :=
  uniform_setter_absent_name_noop (Shader.mk 1) "uOffset"
    ⟨[(1, ⟨[("uColor", GLValue.vec4 1 0 0 1)]⟩)], 1⟩
    ⟨[("uColor", GLValue.vec4 1 0 0 1)]⟩ 0 0 0 0 0 0 1 1 [1, 0, 0, 1]
    (by decide) (by decide)

/-! ### GL object lifecycle: shader stages, programs, compilation -/

/-- The GL object state relevant to shader construction: the live shader
objects with their `GL_COMPILE_STATUS`, the live program objects with
their `GL_LINK_STATUS`, and the next fresh object id. -/
structure GLState where
  shaders : List (Nat × Bool)
  programObjs : List (Nat × Bool)
  nextId : Nat
deriving DecidableEq, Repr

/-- Model of `glCreateShader`: returns a fresh shader object (compile status
initially false). -/
def glCreateShader (st : GLState) : Nat × GLState :=
  (st.nextId,
    { st with shaders := (st.nextId, false) :: st.shaders, nextId := st.nextId + 1 })

/-- Model of `glCompileShader` on object `id`, given the driver's verdict
`success`: records the compile status on the object. -/
def glCompileShaderAt (st : GLState) (id : Nat) (success : Bool) : GLState :=
  { st with
    shaders := st.shaders.map (fun sh => if sh.1 == id then (sh.1, success) else sh) }

/-- Model of `glDeleteShader`: the shader object no longer exists. -/
def glDeleteShader (st : GLState) (id : Nat) : GLState :=
  { st with shaders := st.shaders.filter (fun sh => sh.1 != id) }

/-- Model of `glCreateProgram`: returns a fresh program object (link status
initially false). -/
def glCreateProgram (st : GLState) : Nat × GLState :=
  (st.nextId,
    { st with programObjs := (st.nextId, false) :: st.programObjs,
              nextId := st.nextId + 1 })

/-- Model of `glLinkProgram` on program `id`, given the driver's verdict
`success`: records the link status on the object. -/
def glLinkProgramAt (st : GLState) (id : Nat) (success : Bool) : GLState :=
  { st with
    programObjs := st.programObjs.map (fun pr =>
      if pr.1 == id then (pr.1, success) else pr) }

/-- Model of `glGetShaderiv(id, GL_COMPILE_STATUS)`: the recorded compile status,
or `none` if no such object exists. -/
def glGetShaderStatus (st : GLState) (id : Nat) : Option Bool :=
  (st.shaders.find? (fun sh => sh.1 == id)).map (fun sh => sh.2)

/-- The GLenum constant `GL_VERTEX_SHADER`. -/
def GL_VERTEX_SHADER : Nat := 35633

/-- The GLenum constant `GL_FRAGMENT_SHADER`. -/
def GL_FRAGMENT_SHADER : Nat := 35632

/-- Function `CompileShader` from `ex02_DrawTwoRectangles.cpp`.  The driver's
behaviour on a source text is a parameter
`driver : Nat → String → Bool × String` giving, per stage kind and
source, the compile verdict and the info log.  The function creates a
shader object, submits the source, compiles, and on failure writes
`"Shader error:\n" ++ infoLog` to `std::cerr`; the object is returned in
every case.  Result: (returned shader id, final GL state, error-stream
output). -/
def CompileShader (driver : Nat → String → Bool × String)
    (shaderSource : String) (shaderType : Nat) (st : GLState) :
    Nat × GLState × List String :=
  let c := glCreateShader st
  let verdict := driver shaderType shaderSource
  let st2 := glCompileShaderAt c.2 c.1 verdict.1
  let errs := if verdict.1 = false then ["Shader error:\n" ++ verdict.2] else []
  (c.1, st2, errs)

/-- C8.  Compiling a source the driver rejects (`GL_COMPILE_STATUS`
false): the surfaced diagnostic list is non-empty and every diagnostic in
it is a non-empty string, the stage object's compile-status flag is
false, and the stage object still exists and is returned to the caller
(the function returns normally in all cases). -/
theorem compileShader_failure_reports (driver : Nat → String → Bool × String)
    (shaderSource : String) (shaderType : Nat) (st : GLState)
    (hfail : (driver shaderType shaderSource).1 = false) :
    (CompileShader driver shaderSource shaderType st).2.2 ≠ [] ∧
      (∀ e ∈ (CompileShader driver shaderSource shaderType st).2.2, e.length > 0) ∧
      glGetShaderStatus (CompileShader driver shaderSource shaderType st).2.1
        (CompileShader driver shaderSource shaderType st).1 = some false ∧
      (CompileShader driver shaderSource shaderType st).1 ∈
        ((CompileShader driver shaderSource shaderType st).2.1.shaders.map
          (fun sh => sh.1)) := by
  refine ⟨?_, ?_, ?_, ?_⟩
  · simp [CompileShader, hfail]
  · intro e he
    simp [CompileShader, hfail] at he
    simp [he, String.length_append]
    exact Or.inl (by decide)
  · simp [CompileShader, hfail, glCreateShader, glCompileShaderAt, glGetShaderStatus]
  · simp [CompileShader, glCreateShader, glCompileShaderAt]

/-- C8 (witness): a driver that rejects the source `"bad glsl"` with log
`"0:1: syntax error"` — the diagnostic is surfaced, the status flag on the
returned object is false, and the object is live. -/
theorem compileShader_failure_reports_witness :
    (CompileShader (fun _ _ => (false, "0:1: syntax error")) "bad glsl"
        GL_VERTEX_SHADER ⟨[], [], 0⟩).2.2 ≠ [] ∧
      (∀ e ∈ (CompileShader (fun _ _ => (false, "0:1: syntax error")) "bad glsl"
        GL_VERTEX_SHADER ⟨[], [], 0⟩).2.2, e.length > 0) ∧
      glGetShaderStatus
        (CompileShader (fun _ _ => (false, "0:1: syntax error")) "bad glsl"
          GL_VERTEX_SHADER ⟨[], [], 0⟩).2.1
        (CompileShader (fun _ _ => (false, "0:1: syntax error")) "bad glsl"
          GL_VERTEX_SHADER ⟨[], [], 0⟩).1 = some false ∧
      (CompileShader (fun _ _ => (false, "0:1: syntax error")) "bad glsl"
          GL_VERTEX_SHADER ⟨[], [], 0⟩).1 ∈
        ((CompileShader (fun _ _ => (false, "0:1: syntax error")) "bad glsl"
          GL_VERTEX_SHADER ⟨[], [], 0⟩).2.1.shaders.map (fun sh => sh.1)) :=
  compileShader_failure_reports (fun _ _ => (false, "0:1: syntax error")) "bad glsl"
    GL_VERTEX_SHADER ⟨[], [], 0⟩ rfl

/-- Embedding of `Shader::checkCompileErrors` from `shader.cpp`, as the error-stream
output it produces given the queried status flag and info log: stage
objects report `SHADER COMPILE ERROR [type]`, the program reports
`PROGRAM LINK ERROR`; nothing is printed on success. -/
def checkCompileErrors (success : Bool) (infoLog : String) (type : String) :
    List String :=
  if type ≠ "PROGRAM" then
    if !success then ["SHADER COMPILE ERROR [" ++ type ++ "]:\n" ++ infoLog] else []
  else
    if !success then ["PROGRAM LINK ERROR:\n" ++ infoLog] else []

/-- The `Shader::Shader(vertexPath, fragmentPath)` constructor from
`shader.cpp`, straight-line: read both files (`rdbuf` of an unopenable
stream contributes the empty string), create and compile the vertex
stage, create and compile the fragment stage, create and link the
program, then `glDeleteShader` both stages — with no early exit on any
failure.  `driver` gives the compile verdict and log per (stage kind,
source); `linker` gives the link verdict and log from the two sources.
Result: (constructed wrapper, final GL state, error-stream output). -/
def Shader.construct (driver : Nat → String → Bool × String)
    (linker : String → String → Bool × String)
    (vFile fFile : Option String) (st : GLState) :
    Shader × GLState × List String :=
  let vertCode := vFile.getD ""
  let fragCode := fFile.getD ""
  let cv := glCreateShader st
  let vv := driver GL_VERTEX_SHADER vertCode
  let st2 := glCompileShaderAt cv.2 cv.1 vv.1
  let errsV := checkCompileErrors vv.1 vv.2 "VERTEX"
  let cf := glCreateShader st2
  let vf := driver GL_FRAGMENT_SHADER fragCode
  let st4 := glCompileShaderAt cf.2 cf.1 vf.1
  let errsF := checkCompileErrors vf.1 vf.2 "FRAGMENT"
  let cp := glCreateProgram st4
  let vl := linker vertCode fragCode
  let st6 := glLinkProgramAt cp.2 cp.1 vl.1
  let errsP := checkCompileErrors vl.1 vl.2 "PROGRAM"
  let st7 := glDeleteShader st6 cv.1
  let st8 := glDeleteShader st7 cf.1
  (⟨cp.1⟩, st8, errsV ++ errsF ++ errsP)

/-- C6.  On every execution path of the constructor — for every driver
verdict, linker verdict, and file-read outcome — the two stage objects
created during construction (ids `st.nextId` and `st.nextId + 1`) are
deleted before the constructor returns: neither is a live shader object
in the final GL state. -/
theorem shader_ctor_deletes_stages (driver : Nat → String → Bool × String)
    (linker : String → String → Bool × String)
    (vFile fFile : Option String) (st : GLState) :
    st.nextId ∉
        ((Shader.construct driver linker vFile fFile st).2.1.shaders.map
          (fun sh => sh.1)) ∧
      st.nextId + 1 ∉
        ((Shader.construct driver linker vFile fFile st).2.1.shaders.map
          (fun sh => sh.1)) := by
  constructor
  · intro hmem
    simp only [Shader.construct, glCreateShader, glCompileShaderAt, glCreateProgram,
      glLinkProgramAt, glDeleteShader, List.mem_map, List.mem_filter] at hmem
    obtain ⟨sh, ⟨⟨_, hne⟩, _⟩, hid⟩ := hmem
    simp [hid] at hne
  · intro hmem
    simp only [Shader.construct, glCreateShader, glCompileShaderAt, glCreateProgram,
      glLinkProgramAt, glDeleteShader, List.mem_map, List.mem_filter] at hmem
    obtain ⟨sh, ⟨_, hne⟩, hid⟩ := hmem
    simp [hid] at hne

/-! ### Program startup (`main`) -/

/-- The outcomes of the three fallible initialization steps of `main`:
`glfwInit()`, `glfwCreateWindow(...)` (null on failure), and
`gladLoadGLLoader(...)`. -/
structure InitEnv where
  glfwInitOk : Bool
  windowOk : Bool
  gladOk : Bool
deriving DecidableEq, Repr

/-- What a run of `main` produces, as far as the claims observe it: the
value returned from `main` (the process exit code), the diagnostics
written to `std::cerr`, and whether control reached the render loop. -/
structure MainResult where
  exitCode : Int
  errs : List String
  enteredRenderLoop : Bool
deriving DecidableEq, Repr

/-- Embedding of `main` from `ex03_Shaders/main.cpp`, initialization control flow: on
`glfwInit` failure print `"Failed to initialize GLFW"` and `return -1`;
on window-creation failure print `"Failed to create GLFW window"`,
terminate GLFW and `return -1`; on GLAD failure print
`"Failed to initialize GLAD"` and `return -1`; otherwise set up buffers
and the shader and enter the render loop (the loop body and the final
`return` are not observed by the claims). -/
def mainEx03 (env : InitEnv) : MainResult :=
  if !env.glfwInitOk then ⟨-1, ["Failed to initialize GLFW"], false⟩
  else if !env.windowOk then ⟨-1, ["Failed to create GLFW window"], false⟩
  else if !env.gladOk then ⟨-1, ["Failed to initialize GLAD"], false⟩
  else ⟨0, [], true⟩

/-- Embedding of `main` from `HelloWorld_GL/HelloWorld_GL.cpp`: identical
initialization control flow and diagnostics, then `return 0` after the
render loop. -/
def mainHelloWorld (env : InitEnv) : MainResult :=
  if !env.glfwInitOk then ⟨-1, ["Failed to initialize GLFW"], false⟩
  else if !env.windowOk then ⟨-1, ["Failed to create GLFW window"], false⟩
  else if !env.gladOk then ⟨-1, ["Failed to initialize GLAD"], false⟩
  else ⟨0, [], true⟩

/-- C7.  In every run in which GLFW initialization, window creation, or
GL-loader initialization fails, both embedded `main`s print a diagnostic
to the error stream and return a non-zero exit code without entering the
render loop. -/
theorem main_init_failure_exits_nonzero (env : InitEnv)
    (h : env.glfwInitOk = false ∨ env.windowOk = false ∨ env.gladOk = false) :
    ((mainEx03 env).exitCode ≠ 0 ∧ (mainEx03 env).errs ≠ [] ∧
        (mainEx03 env).enteredRenderLoop = false) ∧
      ((mainHelloWorld env).exitCode ≠ 0 ∧ (mainHelloWorld env).errs ≠ [] ∧
        (mainHelloWorld env).enteredRenderLoop = false) := by
  obtain ⟨a, b, c⟩ := env
  revert h
  cases a <;> cases b <;> cases c <;> decide

/-- C7 (witness): when window creation fails (GLFW itself initialized,
GLAD never reached), both programs exit non-zero with a diagnostic and
never enter the render loop. -/
theorem main_init_failure_exits_nonzero_witness :
    ((mainEx03 ⟨true, false, true⟩).exitCode ≠ 0 ∧
        (mainEx03 ⟨true, false, true⟩).errs ≠ [] ∧
        (mainEx03 ⟨true, false, true⟩).enteredRenderLoop = false) ∧
      ((mainHelloWorld ⟨true, false, true⟩).exitCode ≠ 0 ∧
        (mainHelloWorld ⟨true, false, true⟩).errs ≠ [] ∧
        (mainHelloWorld ⟨true, false, true⟩).enteredRenderLoop = false) :=
  main_init_failure_exits_nonzero ⟨true, false, true⟩ (Or.inr (Or.inl rfl))
